import Mathlib

/-!
Verification of the mx-e-commerce-scraper repository against its
natural-language specification.

The TypeScript sources are shallowly embedded: JavaScript strings become
`List Char`, Playwright page interactions become records of observation
functions, promise rejection becomes `Except`, and each exported function
of the repository is transcribed line by line into a Lean definition of
the same name.  The repository contains several variants of the login and
extraction logic; each embedded function notes the variant (file) it is
taken from.
-/

set_option maxRecDepth 4096

/-! ## JavaScript string primitives

JavaScript strings are modelled as `List Char`.  `str` converts a Lean
string literal; `jsIncludes` is `String.prototype.includes`, `jsToLower`
is `toLowerCase`, `jsTrim` is `trim`, `jsOrD` is the idiom `x || d` for a
nullable string `x` (both `null` and the empty string are falsy). -/

abbrev JStr := List Char

def str (s : String) : JStr := s.toList

def jsIncludes (pat s : JStr) : Bool := decide (pat <:+: s)

def jsToLower (s : JStr) : JStr := s.map Char.toLower

def jsTrim (s : JStr) : JStr :=
  ((s.dropWhile Char.isWhitespace).reverse.dropWhile Char.isWhitespace).reverse

def jsOrD (x : Option JStr) (d : JStr) : JStr :=
  match x with
  | some t => if t.isEmpty then d else t
  | none => d

def jsStartsWith (pat s : JStr) : Bool := pat.isPrefixOf s

theorem jsIncludes_iff (pat s : JStr) : jsIncludes pat s = true ↔ pat <:+: s := by
  simp [jsIncludes]

theorem dropWhile_length_le (p : Char → Bool) (l : List Char) :
    (l.dropWhile p).length ≤ l.length := by
  induction l with
  | nil => simp [List.dropWhile]
  | cons a l ih =>
    rw [List.dropWhile_cons]
    by_cases h : p a
    · simp only [h, if_true]
      exact Nat.le_succ_of_le ih
    · simp [h]

theorem jsTrim_length_le (l : JStr) : (jsTrim l).length ≤ l.length := by
  unfold jsTrim
  calc ((l.dropWhile Char.isWhitespace).reverse.dropWhile Char.isWhitespace).reverse.length
      = ((l.dropWhile Char.isWhitespace).reverse.dropWhile Char.isWhitespace).length := by
        simp
    _ ≤ (l.dropWhile Char.isWhitespace).reverse.length := dropWhile_length_le _ _
    _ = (l.dropWhile Char.isWhitespace).length := by simp
    _ ≤ l.length := dropWhile_length_le _ _

/-! ## Validators (src/utils/validators.ts)

The functions `validateCredentials` and `validatePassword`, transcribed
from the validators module (the third document of src/src/utils/scraper.ts,
lines 1196-1218).  The email test is `input.includes('@') &&
input.includes('.com')`; the phone test is the regex `^\d{10}$`, i.e.
exactly ten characters, all decimal digits. -/

inductive CredentialType where
  | email
  | phone
  | unknown
deriving DecidableEq, Repr

structure ValidationResult where
  isValid : Bool
  type : CredentialType
deriving DecidableEq, Repr

def validateCredentials (input : JStr) : ValidationResult :=
  if jsIncludes (str "@") input && jsIncludes (str ".com") input then
    { isValid := true, type := .email }
  else if input.length = 10 && input.all Char.isDigit then
    { isValid := true, type := .phone }
  else
    { isValid := false, type := .unknown }

def validatePassword (password : JStr) : Bool :=
  (jsTrim password).length > 0

theorem at_not_digit (s : JStr) (h : jsIncludes (str "@") s = true) :
    s.all Char.isDigit = false := by
  rw [jsIncludes_iff] at h
  have hm : '@' ∈ s := h.subset (by simp [str])
  rw [Bool.eq_false_iff]
  intro hall
  rw [List.all_eq_true] at hall
  have hd := hall '@' hm
  exact absurd hd (by decide)

theorem validateCredentials_email_iff (s : JStr) :
    (validateCredentials s).type = CredentialType.email ↔
      jsIncludes (str "@") s = true ∧ jsIncludes (str ".com") s = true := by
  unfold validateCredentials
  cases h1 : (jsIncludes (str "@") s && jsIncludes (str ".com") s) with
  | false =>
      have h1n : ¬(jsIncludes (str "@") s = true ∧ jsIncludes (str ".com") s = true) := by
        intro hc
        rw [hc.1, hc.2] at h1
        simp at h1
      refine iff_of_false ?_ h1n
      rw [if_neg (by simp)]
      split <;> simp
  | true =>
      rw [if_pos rfl]
      rw [Bool.and_eq_true] at h1
      simp [h1.1, h1.2]

theorem validateCredentials_phone_iff (s : JStr) :
    (validateCredentials s).type = CredentialType.phone ↔
      s.length = 10 ∧ s.all Char.isDigit = true := by
  unfold validateCredentials
  cases h1 : (jsIncludes (str "@") s && jsIncludes (str ".com") s) with
  | true =>
      rw [if_pos rfl]
      rw [Bool.and_eq_true] at h1
      have hd := at_not_digit s h1.1
      refine iff_of_false (by simp) ?_
      intro hc
      rw [hc.2] at hd
      simp at hd
  | false =>
      rw [if_neg (by simp)]
      cases h2 : (decide (s.length = 10) && s.all Char.isDigit) with
      | true =>
          rw [if_pos rfl]
          rw [Bool.and_eq_true, decide_eq_true_iff] at h2
          simp [h2.1, h2.2]
      | false =>
          have h2n : ¬(s.length = 10 ∧ s.all Char.isDigit = true) := by
            intro hc
            simp [hc.1, hc.2] at h2
          refine iff_of_false ?_ h2n
          rw [if_neg (by simp)]
          simp

theorem validateCredentials_isValid_iff (s : JStr) :
    (validateCredentials s).isValid = false ↔
      (validateCredentials s).type = CredentialType.unknown := by
  unfold validateCredentials
  split
  · simp
  · split <;> simp

/-- C4: `validateCredentials` classifies an input as email exactly when it
contains `@` and the domain suffix `.com` (the literal suffix the code
tests for), as phone exactly when it is exactly 10 characters long and
all digits, and as `unknown` (invalid) otherwise; the three scenario
inputs behave as the specification states. -/
theorem validateCredentials_classification :
    (∀ s : JStr, (validateCredentials s).type = CredentialType.email ↔
      jsIncludes (str "@") s = true ∧ jsIncludes (str ".com") s = true) ∧
    (∀ s : JStr, (validateCredentials s).type = CredentialType.phone ↔
      s.length = 10 ∧ s.all Char.isDigit = true) ∧
    (∀ s : JStr, (validateCredentials s).isValid = false ↔
      (validateCredentials s).type = CredentialType.unknown) ∧
    (validateCredentials (str "user@example.com")).type = CredentialType.email ∧
    (validateCredentials (str "9876543210")).type = CredentialType.phone ∧
    (validateCredentials (str "abc")).isValid = false :=
  ⟨validateCredentials_email_iff, validateCredentials_phone_iff,
   validateCredentials_isValid_iff, by decide, by decide, by decide⟩

/-! ## Page driver model

A Playwright page is abstracted to a record of observation and action
primitives.  Every primitive that the TypeScript code `await`s returns
`Except JStr _`: `Except.error` is a rejected promise (a thrown driver
error), `Except.ok` a fulfilled one.  `page.url()` is synchronous in
Playwright and never rejects, so it is a plain field; `urlFinal` is the
snapshot returned by the second `page.url()` read that `enterPassword`
performs after its navigation race.  `navRace` is the settled outcome of
the `Promise.race` in `enterPassword` (tag string on fulfilment). -/

structure Drv where
  url : JStr
  urlFinal : JStr
  title : Except JStr JStr
  isVisible : JStr → Except JStr Bool
  textContent : JStr → Except JStr (Option JStr)
  fill : JStr → JStr → Except JStr Unit
  click : JStr → Except JStr Unit
  goto : JStr → Except JStr Unit
  screenshot : JStr → Except JStr Unit
  waitForTimeout : Except JStr Unit
  waitForNavigation : Except JStr Unit
  waitForSelector : JStr → Except JStr Unit
  navRace : Except JStr JStr
  findEl : JStr → Except JStr Bool

/-- AuthPage is a settled page snapshot on which no driver primitive
fails: `visible` answers `isVisible` (and element-existence) queries and
`text` answers `textContent` queries. -/
structure AuthPage where
  url : JStr
  urlFinal : JStr
  title : JStr
  visible : JStr → Bool
  text : JStr → Option JStr

def mkDrv (p : AuthPage) : Drv where
  url := p.url
  urlFinal := p.urlFinal
  title := .ok p.title
  isVisible := fun s => .ok (p.visible s)
  textContent := fun s => .ok (p.text s)
  fill := fun _ _ => .ok ()
  click := fun _ => .ok ()
  goto := fun _ => .ok ()
  screenshot := fun _ => .ok ()
  waitForTimeout := .ok ()
  waitForNavigation := .ok ()
  waitForSelector := fun _ => .ok ()
  navRace := .ok (str "timeout")
  findEl := fun s => .ok (p.visible s)

/-- The loop `for (const selector of list) if (await page.isVisible(selector))
return true` used throughout the repository; errors of `isVisible`
propagate to the enclosing try/catch. -/
def firstVisibleE (d : Drv) : List JStr → Except JStr Bool
  | [] => .ok false
  | s :: rest => do
      let v ← d.isVisible s
      if v then return true else firstVisibleE d rest

/-- The loop `for (const selector of list) { if (await page.isVisible(selector))
{ found = selector; break } }` returning the first visible selector. -/
def findVisibleE (d : Drv) : List JStr → Except JStr (Option JStr)
  | [] => .ok none
  | s :: rest => do
      let v ← d.isVisible s
      if v then return (some s) else findVisibleE d rest

theorem mkDrv_isVisible (p : AuthPage) (s : JStr) :
    (mkDrv p).isVisible s = .ok (p.visible s) := rfl

theorem mkDrv_textContent (p : AuthPage) (s : JStr) :
    (mkDrv p).textContent s = .ok (p.text s) := rfl

theorem mkDrv_title (p : AuthPage) : (mkDrv p).title = .ok p.title := rfl

theorem mkDrv_url (p : AuthPage) : (mkDrv p).url = p.url := rfl

theorem mkDrv_urlFinal (p : AuthPage) : (mkDrv p).urlFinal = p.urlFinal := rfl

theorem mkDrv_screenshot (p : AuthPage) (s : JStr) :
    (mkDrv p).screenshot s = .ok () := rfl

theorem mkDrv_fill (p : AuthPage) (s v : JStr) : (mkDrv p).fill s v = .ok () := rfl

theorem mkDrv_click (p : AuthPage) (s : JStr) : (mkDrv p).click s = .ok () := rfl

theorem mkDrv_waitForTimeout (p : AuthPage) : (mkDrv p).waitForTimeout = .ok () := rfl

theorem mkDrv_navRace (p : AuthPage) : (mkDrv p).navRace = .ok (str "timeout") := rfl

theorem firstVisibleE_mkDrv (p : AuthPage) (l : List JStr) :
    firstVisibleE (mkDrv p) l = .ok (l.any p.visible) := by
  induction l with
  | nil => rfl
  | cons s rest ih =>
    simp only [firstVisibleE, mkDrv_isVisible, List.any_cons]
    by_cases h : p.visible s <;>
      simp [h, ih, Bind.bind, Except.bind, Pure.pure, Except.pure]

/-! ## Config constants (src/utils/config.ts) -/

namespace SELECTORS

def INVALID_MOBILE_ERROR : JStr := str ".a-alert-content:has-text(\"Invalid mobile number\")"

def ALERT_CONTENT : JStr := str ".a-alert-content"

def ERROR_CONTAINER : JStr := str ".a-alert-content, .a-box-inner .a-alert-container"

def EMAIL_FIELD : JStr := str "#ap_email"

def CONTINUE_BUTTON : JStr := str "#continue"

def PASSWORD_FIELD : JStr := str "#ap_password"

def SIGN_IN_BUTTON : JStr := str "#signInSubmit"

def AUTH_WORKFLOW : JStr := str "#ap_password, #ap_email, .auth-workflow"

def MFA_SELECTORS : List JStr :=
  [str "#auth-mfa-otpcode",
   str ".auth-mfa-form",
   str "#auth-mfa-remember-device",
   str "input[name=\"otpCode\"]",
   str "form:has-text(\"Two-Step Verification\")",
   str "form:has-text(\"Two-Factor Authentication\")",
   str "form:has-text(\"Enter the OTP\")",
   str "#auth-mfa-form",
   str "[data-a-target=\"mfa-otp-field\"]",
   str "input[placeholder*=\"verification\"]",
   str "input[type=\"tel\"]"]

def OTP_TEXT_INDICATORS : List JStr :=
  [str "verification code",
   str "two-step verification",
   str "two-factor authentication",
   str "security code",
   str "enter the code",
   str "otp",
   str "one-time password",
   str "authentication code",
   str "mobile number we have on record",
   str "enter the otp",
   str "sent to your mobile"]

def OTP_INPUT_SELECTORS : List JStr :=
  [str "#auth-mfa-otpcode",
   str "input[name=\"otpCode\"]",
   str "input[id*=\"mfa\"]",
   str "input[id*=\"otp\"]",
   str "input[name*=\"mfa\"]",
   str "input[name*=\"otp\"]",
   str "input[placeholder*=\"code\"]",
   str "[data-a-target=\"mfa-otp-field\"]",
   str "input[type=\"tel\"]",
   str "input[type=\"text\"]",
   str "input.a-input-text"]

def SUBMIT_BUTTON_SELECTORS : List JStr :=
  [str "#auth-signin-button",
   str "button[type=\"submit\"]",
   str "input[type=\"submit\"]",
   str "button:has-text(\"Verify\")",
   str "button:has-text(\"Submit\")",
   str "button:has-text(\"Continue\")",
   str ".a-button-input",
   str "[aria-labelledby*=\"submit\"]",
   str "form .a-button-primary",
   str "input.a-button-input"]

def ORDER_BUTTON : JStr := str "#nav-orders, a[href*=\"order-history\"]"

def ORDER_PAGE_INDICATORS : List JStr :=
  [str ".your-orders-content",
   str ".order-card",
   str ".a-box-group",
   str "a:has-text(\"Buy it again\")",
   str "#ordersContainer",
   str "#yourOrders",
   str "h1:has-text(\"Your Orders\")",
   str "text=Your Orders",
   str ".shipping-address",
   str "text=Buy Again",
   str "text=Not Yet Shipped",
   str "text=orders placed in",
   str "#orderTypeMenuContainer",
   str ".a-pagination",
   str ".order",
   str ".time-filter-dropdown",
   str "#nav-orders"]

end SELECTORS

/-! ## Second-factor detection (src/utils/auth.ts, src/unnamed/part_001
lines 163-217)

The function `isMFARequired` of the modular auth variant: the address
and title signals are checked unconditionally; the input-field and
body-text signals are only consulted when the address matches the legacy
sign-in pattern. -/

namespace Auth

def isMFARequiredE (d : Drv) : Except JStr Bool := do
  let currentUrl := d.url
  d.screenshot (str "possible-otp-page.png")
  if jsIncludes (str "/ap/mfa") currentUrl then
    return true
  let pageTitle ← d.title
  let hasVerificationTitle :=
    jsIncludes (str "Verification") pageTitle || jsIncludes (str "OTP") pageTitle
  if hasVerificationTitle then
    return true
  if jsIncludes (str "/ap/signin") currentUrl &&
      jsIncludes (str "openid.pape.max_auth_age=0") currentUrl then
    let anyVis ← firstVisibleE d SELECTORS.MFA_SELECTORS
    if anyVis then
      return true
    let pageText ← d.textContent (str "body")
    match pageText with
    | some t =>
        if !t.isEmpty &&
            SELECTORS.OTP_TEXT_INDICATORS.any (fun i => jsIncludes i (jsToLower t)) then
          return true
        else
          return false
    | none => return false
  else
    return false

def isMFARequired (d : Drv) : Bool :=
  match isMFARequiredE d with
  | .ok b => b
  | .error _ => false

end Auth

/-! ## The four second-factor signals, named as the specification lists
them (claim C5). -/

def urlSignal (p : AuthPage) : Bool := jsIncludes (str "/ap/mfa") p.url

def titleSignal (p : AuthPage) : Bool :=
  jsIncludes (str "Verification") p.title || jsIncludes (str "OTP") p.title

def addressGate (p : AuthPage) : Bool :=
  jsIncludes (str "/ap/signin") p.url && jsIncludes (str "openid.pape.max_auth_age=0") p.url

def fieldSignal (p : AuthPage) : Bool := SELECTORS.MFA_SELECTORS.any p.visible

def bodySignal (p : AuthPage) : Bool :=
  match p.text (str "body") with
  | some t =>
      !t.isEmpty && SELECTORS.OTP_TEXT_INDICATORS.any (fun i => jsIncludes i (jsToLower t))
  | none => false

/-- C5 (amended): characterization of the second-factor detector of the
modular auth variant.  The address signal and the title signal are
unconditional, but the input-field signal and the body-text signal are
consulted only when the address contains both `/ap/signin` and
`openid.pape.max_auth_age=0`; under that gate any positive signal
suffices. -/
theorem isMFARequired_signal_characterization (p : AuthPage) :
    Auth.isMFARequired (mkDrv p) =
      (urlSignal p || titleSignal p || (addressGate p && (fieldSignal p || bodySignal p))) := by
  unfold Auth.isMFARequired Auth.isMFARequiredE urlSignal titleSignal addressGate
    fieldSignal bodySignal
  simp only [mkDrv_url, mkDrv_screenshot, mkDrv_title, mkDrv_textContent, firstVisibleE_mkDrv,
    Bind.bind, Except.bind, Pure.pure, Except.pure]
  cases h1 : jsIncludes (str "/ap/mfa") p.url with
  | true => simp
  | false =>
    cases h2 : (jsIncludes (str "Verification") p.title || jsIncludes (str "OTP") p.title) with
    | true => simp
    | false =>
      cases h3 : (jsIncludes (str "/ap/signin") p.url &&
          jsIncludes (str "openid.pape.max_auth_age=0") p.url) with
      | false => simp
      | true =>
        cases h4 : SELECTORS.MFA_SELECTORS.any p.visible with
        | true => simp
        | false =>
          cases ht : p.text (str "body") with
          | none => simp
          | some t =>
            cases h5 : (!t.isEmpty &&
                SELECTORS.OTP_TEXT_INDICATORS.any (fun i => jsIncludes i (jsToLower t))) with
            | true => simp [h5]
            | false => simp [h5]

/-- A page whose input-field signal and body-text signal are both
positive, while its address matches neither `/ap/mfa` nor the gated
legacy sign-in pattern and its title carries no verification words. -/
def mfaCounterPage : AuthPage where
  url := str "https://www.amazon.in/gp/css"
  urlFinal := str "https://www.amazon.in/gp/css"
  title := str "Amazon Sign-In"
  visible := fun s => s == str "#auth-mfa-otpcode"
  text := fun s =>
    if s == str "body" then some (str "please enter the verification code") else none

/-- C5 (counterexample): on `mfaCounterPage` the candidate input-field
signal and the full-body text signal are both positive, yet
`isMFARequired` reports that no second factor is required, because those
two signals are consulted only behind the address gate.  A single
positive signal therefore does not suffice, contrary to the claim. -/
theorem isMFARequired_single_signal_counterexample :
    fieldSignal mfaCounterPage = true ∧
    bodySignal mfaCounterPage = true ∧
    Auth.isMFARequired (mkDrv mfaCounterPage) = false :=
  ⟨by decide, by decide, by decide⟩

/-! ## Login module (src/src/utils/login.ts)

The functions `enterUsername` (lines 23-90) and `enterPassword`
(lines 98-221) of the modular login variant, transcribed over the driver.
`enterPassword` requires `isMFARequired` from the auth module.  The two
`.catch(() => false)` visibility probes inside the navigation check are
transcribed as local matches (they absorb their own rejections). -/

def incorrectPasswordSelector : JStr :=
  str ".a-alert-content:has-text(\"Your password is incorrect\")"

namespace Login

def enterUsernameE (d : Drv) (username : JStr) : Except JStr Bool := do
  d.screenshot (str "login-page-state.png")
  let hasInvalidMobileError ← d.isVisible SELECTORS.INVALID_MOBILE_ERROR
  if hasInvalidMobileError then
    d.screenshot (str "invalid-mobile-error.png")
    return false
  d.fill SELECTORS.EMAIL_FIELD username
  d.click SELECTORS.CONTINUE_BUTTON
  d.waitForTimeout
  let hasInvalidMobileErrorAfterContinue ← d.isVisible SELECTORS.INVALID_MOBILE_ERROR
  if hasInvalidMobileErrorAfterContinue then
    d.screenshot (str "invalid-mobile-error.png")
    return false
  let hasOtherAlert ← d.isVisible SELECTORS.ALERT_CONTENT
  if hasOtherAlert then
    let errorText := (← d.textContent SELECTORS.ALERT_CONTENT).getD []
    if jsIncludes (str "find") (jsToLower errorText) ||
        jsIncludes (str "cannot") (jsToLower errorText) ||
        jsIncludes (str "problem") (jsToLower errorText) ||
        jsIncludes (str "invalid") (jsToLower errorText) then
      d.screenshot (str "username-error.png")
      return false
  let onPasswordPage ← d.isVisible SELECTORS.PASSWORD_FIELD
  if onPasswordPage then
    return true
  return false

def enterUsername (d : Drv) (username : JStr) : Bool :=
  match enterUsernameE d username with
  | .ok b => b
  | .error _ => false

def enterPasswordE (d : Drv) (password : JStr) : Except JStr Bool := do
  d.fill SELECTORS.PASSWORD_FIELD password
  d.click SELECTORS.SIGN_IN_BUTTON
  d.waitForTimeout
  d.screenshot (str "after-password-submit.png")
  let isOnOTPPage := Auth.isMFARequired d
  if isOnOTPPage then
    return true
  let incorrectPasswordError ← d.isVisible incorrectPasswordSelector
  if incorrectPasswordError then
    d.screenshot (str "incorrect-password-error.png")
    return false
  let otherErrorVisible ← d.isVisible SELECTORS.ERROR_CONTAINER
  if otherErrorVisible then
    let errorText := (← d.textContent SELECTORS.ERROR_CONTAINER).getD []
    if jsIncludes (str "code") (jsToLower errorText) ||
        jsIncludes (str "verification") (jsToLower errorText) ||
        jsIncludes (str "otp") (jsToLower errorText) ||
        jsIncludes (str "wait 60 seconds") (jsToLower errorText) then
      return true
    return false
  d.screenshot (str "pre-navigation-check.png")
  try
    let currentUrl := d.url
    if !jsIncludes (str "/ap/signin") currentUrl &&
        !jsIncludes (str "/ap/password") currentUrl then
      return true
    let _result ← d.navRace
    d.screenshot (str "post-navigation-check.png")
    let stillOnLoginPage :=
      match d.isVisible SELECTORS.AUTH_WORKFLOW with
      | .ok b => b
      | .error _ => false
    if stillOnLoginPage then
      return false
    let finalUrl := d.urlFinal
    return (!jsIncludes (str "/ap/signin") finalUrl &&
      !jsIncludes (str "/ap/password") finalUrl)
  catch _ =>
    let homePageCheck :=
      match d.isVisible (str "#nav-logo, #navbar") with
      | .ok b => b
      | .error _ => false
    if homePageCheck then
      return true
    return false

def enterPassword (d : Drv) (password : JStr) : Bool :=
  match enterPasswordE d password with
  | .ok b => b
  | .error _ => false

end Login

/-- C1: in the password stage, once the second-factor detector is
negative and the specific incorrect-password alert is absent, a visible
generic alert whose text contains `code`, `verification`, `otp` or the
rate-limit phrase `wait 60 seconds` (case-insensitively) makes
`enterPassword` report success (second factor pending) rather than a
password failure. -/
theorem enterPassword_otp_alert_success (p : AuthPage) (pw t : JStr)
    (hmfa : Auth.isMFARequired (mkDrv p) = false)
    (hinc : p.visible incorrectPasswordSelector = false)
    (herr : p.visible SELECTORS.ERROR_CONTAINER = true)
    (htext : p.text SELECTORS.ERROR_CONTAINER = some t)
    (hkw : (jsIncludes (str "code") (jsToLower t) ||
        jsIncludes (str "verification") (jsToLower t) ||
        jsIncludes (str "otp") (jsToLower t) ||
        jsIncludes (str "wait 60 seconds") (jsToLower t)) = true) :
    Login.enterPassword (mkDrv p) pw = true := by
  unfold Login.enterPassword Login.enterPasswordE
  simp only [mkDrv_fill, mkDrv_click, mkDrv_waitForTimeout, mkDrv_screenshot,
    mkDrv_isVisible, mkDrv_textContent, hmfa, hinc, herr, htext,
    Bind.bind, Except.bind, Pure.pure, Except.pure, Option.getD_some]
  simp [hkw]

/-- C1 (witness): the alert text `Enter the OTP sent, wait 60 seconds`
makes the password stage report success on a concrete sign-in page. -/
theorem enterPassword_otp_alert_success_witness :
    Login.enterPassword (mkDrv
      { url := str "https://www.amazon.in/ap/signin"
        urlFinal := str "https://www.amazon.in/ap/signin"
        title := str "Amazon Sign-In"
        visible := fun s => s == SELECTORS.ERROR_CONTAINER
        text := fun s =>
          if s == SELECTORS.ERROR_CONTAINER then
            some (str "Enter the OTP sent, wait 60 seconds")
          else none }) (str "hunter2") = true :=
  enterPassword_otp_alert_success _ _ (str "Enter the OTP sent, wait 60 seconds")
    (by decide) (by decide) (by decide) (by decide) (by decide)

/-! ## Flat extraction variant (src/src/utils/scraper.ts lines 759-957)

The monolithic `extractOrders`: records are flat `{name, price, link}`
triples.  Element-level probing is abstracted to its observable result:
for each order container, `nameEl` is the first of the eight name
selectors that matched (its text content and href), `viewOrderHref` the
optional `View order` link, and `priceText` the text of the first
matching price selector.  For fallback product links, `priceNear` is the
text of the price node found by walking to an enclosing ancestor. -/

namespace Scraper

structure OrderItem where
  name : JStr
  price : JStr
  link : JStr
deriving DecidableEq, Repr

structure FlatLink where
  text : Option JStr
  href : Option JStr
  priceNear : Option JStr
deriving Repr

structure FlatContainer where
  nameEl : Option FlatLink
  viewOrderHref : Option (Option JStr)
  priceText : Option JStr
deriving Repr

def baseUrl : JStr := str "https://www.amazon.in"

def noOrdersSelectors : List JStr :=
  [str "text=No orders",
   str "text=No Order History",
   str "text=You have not placed any orders",
   str ".a-box-inner:has-text(\"We couldn\x27t find\")"]

def orderContainerSelectors : List JStr :=
  [str ".order, .a-box-group",
   str ".js-order-card",
   str ".order-card",
   str ".a-box.shipment",
   str ".yo-shipment",
   str ".a-fixed-left-grid-inner",
   str ".a-section.a-padding-small.a-text-center.order",
   str "div[data-testid=\"yo-order-card\"]"]

def productLinkSelectors : List JStr :=
  [str ".a-link-normal.a-text-bold[href*=\"/gp/product/\"]",
   str ".a-link-normal[href*=\"/dp/\"]",
   str ".a-link-normal.yohtmlc-product-title",
   str "a[href*=\"/product/\"]",
   str "a.a-link-normal[href*=\"dp\"]"]

/-- Shared tail of the container loop body (lines 910-947): resolve the
absolute link, apply the price default, the rupee-symbol prefix rule and
the final trims. -/
def finishRecord (name link : JStr) (priceText : Option JStr) : OrderItem :=
  let fullLink := if jsStartsWith (str "http") link then link else baseUrl ++ link
  let price0 := jsTrim (jsOrD priceText (str "Price not available"))
  let price :=
    if !jsIncludes (str "₹") price0 && price0 ≠ str "Price not available" then
      str "₹" ++ price0
    else price0
  { name := jsTrim name, price := jsTrim price, link := fullLink }

/-- One iteration of the container loop (lines 864-948): a record is
produced from the first matching name selector (with the 100-character
truncation of lines 888-891), else from a `View order` link, else the
container is skipped. -/
def recordOfContainer (c : FlatContainer) : Option OrderItem :=
  match c.nameEl with
  | some el =>
      let name0 := jsOrD el.text (str "Unknown Item")
      let name := if 100 < name0.length then name0.take 97 ++ str "..." else name0
      some (finishRecord name (el.href.getD []) c.priceText)
  | none =>
      match c.viewOrderHref with
      | some href =>
          some (finishRecord (str "Multiple items - see order details") (href.getD [])
            c.priceText)
      | none => none

/-- One iteration of the fallback product-link loop (lines 825-852):
no truncation and no rupee-prefix rule are applied on this path. -/
def recordOfLink (l : FlatLink) : OrderItem :=
  let name := jsOrD l.text (str "Unknown Item")
  let href := l.href.getD []
  let fullLink := if jsStartsWith (str "http") href then href else baseUrl ++ href
  let price := jsOrD l.priceNear (str "Price not available")
  { name := jsTrim name, price := jsTrim price, link := fullLink }

/-- Driver view of the settled order-history page used by the flat
`extractOrders`: visibility probes, the container query (`page.$$`) per
container selector, and the product-link query per link selector. -/
structure FlatDrv where
  isVisible : JStr → Except JStr Bool
  waitForTimeout : Except JStr Unit
  containersOf : JStr → Except JStr (List FlatContainer)
  linksOf : JStr → Except JStr (List FlatLink)

def flatAnyVisibleE (d : FlatDrv) : List JStr → Except JStr Bool
  | [] => .ok false
  | s :: rest => do
      let v ← d.isVisible s
      if v then return true else flatAnyVisibleE d rest

/-- The probe `for selector: els = await page.$$(selector); if
(els.length > 0) break` returning the first non-empty query result. -/
def firstNonEmptyE (f : JStr → Except JStr (List α)) : List JStr → Except JStr (List α)
  | [] => .ok []
  | s :: rest => do
      let r ← f s
      if r.isEmpty then firstNonEmptyE f rest else return r

def extractOrdersE (d : FlatDrv) : Except JStr (List OrderItem) := do
  let noOrders ← flatAnyVisibleE d noOrdersSelectors
  if noOrders then
    return []
  d.waitForTimeout
  let orderElements ← firstNonEmptyE d.containersOf orderContainerSelectors
  if orderElements.isEmpty then
    let productLinks ← firstNonEmptyE d.linksOf productLinkSelectors
    return productLinks.map recordOfLink
  else
    return orderElements.filterMap recordOfContainer

def extractOrders (d : FlatDrv) : List OrderItem :=
  match extractOrdersE d with
  | .ok l => l
  | .error _ => []

/-- Pure page snapshot on which no driver primitive fails. -/
structure FlatPage where
  visible : JStr → Bool
  containersOf : JStr → List FlatContainer
  linksOf : JStr → List FlatLink

def mkFlatDrv (p : FlatPage) : FlatDrv where
  isVisible := fun s => .ok (p.visible s)
  waitForTimeout := .ok ()
  containersOf := fun s => .ok (p.containersOf s)
  linksOf := fun s => .ok (p.linksOf s)

def extractOrdersPage (p : FlatPage) : List OrderItem :=
  extractOrders (mkFlatDrv p)

end Scraper

/-- C10: in the container path of the flat extraction variant, every
record whose product name was resolved from a name selector has a name of
at most 100 characters: titles longer than 100 characters are replaced by
their first 97 characters followed by `...` before the record is built,
and the final trim can only shorten it. -/
theorem recordOfContainer_name_le (c : Scraper.FlatContainer) (el : Scraper.FlatLink)
    (r : Scraper.OrderItem) (hel : c.nameEl = some el)
    (hr : Scraper.recordOfContainer c = some r) :
    r.name.length ≤ 100 := by
  unfold Scraper.recordOfContainer at hr
  rw [hel] at hr
  simp only [Option.some.injEq] at hr
  subst hr
  show (jsTrim (if 100 < (jsOrD el.text (str "Unknown Item")).length then
    (jsOrD el.text (str "Unknown Item")).take 97 ++ str "..." else
    jsOrD el.text (str "Unknown Item"))).length ≤ 100
  set name0 := jsOrD el.text (str "Unknown Item") with hname0
  by_cases h : 100 < name0.length
  · rw [if_pos h]
    refine le_trans (jsTrim_length_le _) ?_
    rw [List.length_append, List.length_take]
    have : (str "...").length = 3 := by decide
    omega
  · rw [if_neg h]
    refine le_trans (jsTrim_length_le _) ?_
    omega

/-- A container whose title is 105 characters long. -/
def longNameLink : Scraper.FlatLink where
  text := some (List.replicate 105 'A')
  href := some (str "/dp/B0000000")
  priceNear := none

def longNameContainer : Scraper.FlatContainer where
  nameEl := some longNameLink
  viewOrderHref := none
  priceText := some (str "₹1,299.00")

/-- C10 (witness): the 105-character title is truncated to a 100-character
name on a concrete container. -/
theorem recordOfContainer_name_le_witness :
    ((Scraper.recordOfContainer longNameContainer).getD
      { name := [], price := [], link := [] }).name.length ≤ 100 :=
  recordOfContainer_name_le longNameContainer longNameLink _ rfl rfl

/-! ## History harvester (src/src/index.ts lines 241-298)

`scrapeOrders` drives `navigateToOrderHistory`, the fallback URL check,
and the descending year loop.  The environment supplies the outcome of
the navigation step, the current address, the settled page behind each
year filter, and the outcome of each `selectOrderYear` call. -/

namespace Index

def possibleOrderUrls : List JStr :=
  [str "order-history",
   str "your-orders",
   str "gp/css/order-history",
   str "gp/your-account/order-history"]

structure ScrapeEnv where
  navigatedToOrderHistory : Bool
  currentUrl : JStr
  fallbackPage : Scraper.FlatPage
  yearSelected : Int → Bool
  yearPage : Int → Scraper.FlatPage
  currentYear : Int

/-- The loop `for (let year = currentYear; year >= currentYear - 4 &&
ordersCollected.length < 10 && yearsScraped < 5; year--)`.  The fuel
argument counts the remaining years of the five-year window (it encodes
`year >= currentYear - 4`); the result pairs the accumulator with the
number of `selectOrderYear` calls performed. -/
def harvestLoop (env : ScrapeEnv) : Int → Nat → List Scraper.OrderItem → Nat →
    List Scraper.OrderItem × Nat
  | _, 0, acc, _ => (acc, 0)
  | year, fuel + 1, acc, yearsScraped =>
      if acc.length < 10 ∧ yearsScraped < 5 then
        if env.yearSelected year then
          let orders := Scraper.extractOrdersPage (env.yearPage year)
          let r := harvestLoop env (year - 1) fuel (acc ++ orders) (yearsScraped + 1)
          (r.1, r.2 + 1)
        else
          let r := harvestLoop env (year - 1) fuel acc yearsScraped
          (r.1, r.2 + 1)
      else
        (acc, 0)

def scrapeOrders (env : ScrapeEnv) : List Scraper.OrderItem :=
  if !env.navigatedToOrderHistory then
    if possibleOrderUrls.any (fun u => jsIncludes u env.currentUrl) then
      Scraper.extractOrdersPage env.fallbackPage
    else
      []
  else
    (harvestLoop env env.currentYear 5 [] 0).1.take 10

/-- Number of `selectOrderYear` navigations a run performs. -/
def scrapeOrdersYearCalls (env : ScrapeEnv) : Nat :=
  if !env.navigatedToOrderHistory then 0
  else (harvestLoop env env.currentYear 5 [] 0).2

end Index

/-- Eleven product links, as found on a fallback page holding more than
the global quota of orders. -/
def elevenLinks : List Scraper.FlatLink :=
  List.replicate 11
    { text := some (str "Sample Item"), href := some (str "/gp/product/B0TEST"),
      priceNear := some (str "₹100.00") }

/-- A page where the order-container descriptor list is exhausted and the
fallback product-link strategy finds eleven links. -/
def overQuotaPage : Scraper.FlatPage where
  visible := fun _ => false
  containersOf := fun _ => []
  linksOf := fun s =>
    if s == str ".a-link-normal.a-text-bold[href*=\"/gp/product/\"]" then elevenLinks else []

/-- A run in which `navigateToOrderHistory` failed but the current
address matches an order-history pattern, and the page yields eleven
records. -/
def overQuotaEnv : Index.ScrapeEnv where
  navigatedToOrderHistory := false
  currentUrl := str "https://www.amazon.in/gp/css/order-history?ref=nav"
  fallbackPage := overQuotaPage
  yearSelected := fun _ => false
  yearPage := fun _ => overQuotaPage
  currentYear := 2025

/-- C2 (failing input): on the fallback path (navigation detection
failed, address matches an order-history pattern) `scrapeOrders` returns
the extraction result without truncating it to the quota of 10 - here
eleven records - contradicting the documented bound. -/
theorem scrapeOrders_quota_violation :
    (Index.scrapeOrders overQuotaEnv).length = 11 := by decide

/-! ## Grouped extraction variant (src/src/utils/extraction.ts, the
fourth document of src/src/utils/scraper.ts lines 1226-1330, and
src/unnamed/part_003 lines 560-667)

This `extractOrders` runs entirely inside one `page.evaluate` over the
document: order cards are `.order-card.js-order-card` nodes; each card
contributes one `Order` record grouping an order date, a price and the
items resolved from its delivery boxes (or its single product / digital
title).  The DOM inside the evaluate callback is pure data, modelled
below; a card node is its optional `.a-box-group` with the queried
sub-elements. -/

namespace Extraction

structure OrderItem where
  productName : JStr
  link : JStr
deriving DecidableEq, Repr

structure Order where
  orderDate : JStr
  price : JStr
  items : List OrderItem
deriving DecidableEq, Repr

structure ProdEl where
  text : Option JStr
  href : Option JStr
deriving DecidableEq, Repr

structure DeliveryBox where
  product : Option ProdEl
deriving DecidableEq, Repr

structure BoxGroup where
  priceText : Option JStr
  dateText : Option JStr
  deliveryBoxes : List DeliveryBox
  product : Option ProdEl
  movieItem : Option ProdEl
deriving DecidableEq, Repr

structure OrderCard where
  boxGroup : Option BoxGroup
deriving DecidableEq, Repr

def baseUrl : JStr := str "https://www.amazon.in"

def mkLink (href : Option JStr) : JStr :=
  let h := href.getD []
  if jsStartsWith (str "http") h then h else baseUrl ++ h

/-- The truthiness test `productElement && productElement.textContent`
followed by `trim()`: yields the trimmed name and absolute link when the
element exists with non-empty text. -/
def rawItem : Option ProdEl → Option (JStr × JStr)
  | some el =>
      match el.text with
      | some t => if t.isEmpty then none else some (jsTrim t, mkLink el.href)
      | none => none
  | none => none

/-- Multiple-items case: one item per delivery box, pushed only when the
trimmed product name is non-empty (`if (productName)`). -/
def itemsOfBoxes (boxes : List DeliveryBox) : List OrderItem :=
  boxes.filterMap fun b =>
    match rawItem b.product with
    | some (n, l) => if n.isEmpty then none else some { productName := n, link := l }
    | none => none

/-- Single item case: the standard product title is tried first, the
digital/media title only when the former is absent or has falsy text. -/
def singleItem (g : BoxGroup) : List OrderItem :=
  match (rawItem g.product).orElse (fun _ => rawItem g.movieItem) with
  | some (n, l) => if n.isEmpty then [] else [{ productName := n, link := l }]
  | none => []

/-- One `orderCards.forEach` iteration: skip cards without a box group;
otherwise build the record and keep it only when at least one item was
resolved (`if (orderEntry.items.length > 0) result.push(orderEntry)`). -/
def orderOfCard (card : OrderCard) : Option Order :=
  match card.boxGroup with
  | none => none
  | some g =>
      let price := match g.priceText with
        | some t => if t.isEmpty then str "N/A" else jsTrim t
        | none => str "N/A"
      let orderDate := match g.dateText with
        | some t => if t.isEmpty then str "N/A" else jsTrim t
        | none => str "N/A"
      let items :=
        if g.deliveryBoxes.isEmpty then singleItem g else itemsOfBoxes g.deliveryBoxes
      if items.isEmpty then none
      else some { orderDate := orderDate, price := price, items := items }

def extractOrders (cards : List OrderCard) : List Order :=
  cards.filterMap orderOfCard

/-- Running the extraction twice on the same settled page. -/
def extractOrdersTwice (cards : List OrderCard) : List Order × List Order :=
  (extractOrders cards, extractOrders cards)

end Extraction

/-- C3: every record retained by the grouped `extractOrders` has a
non-empty items list; cards whose extraction resolves zero items are
dropped without being appended. -/
theorem extractOrders_items_nonempty (cards : List Extraction.OrderCard)
    (o : Extraction.Order) (ho : o ∈ Extraction.extractOrders cards) :
    o.items ≠ [] := by
  unfold Extraction.extractOrders at ho
  rw [List.mem_filterMap] at ho
  obtain ⟨card, _, hcard⟩ := ho
  unfold Extraction.orderOfCard at hcard
  cases hbg : card.boxGroup with
  | none =>
      rw [hbg] at hcard
      exact absurd hcard (by simp)
  | some g =>
      rw [hbg] at hcard
      simp only [] at hcard
      split at hcard
      · split at hcard
        · exact absurd hcard (by simp)
        · obtain rfl := Option.some.inj hcard
          simp_all [List.isEmpty_iff]
      · split at hcard
        · exact absurd hcard (by simp)
        · obtain rfl := Option.some.inj hcard
          simp_all [List.isEmpty_iff]

/-- A settled page with one single-item order card. -/
def demoCards : List Extraction.OrderCard :=
  [{ boxGroup := some
      { priceText := some (str "₹599.00")
        dateText := some (str "12 March 2025")
        deliveryBoxes := []
        product := some { text := some (str " Widget Pro "), href := some (str "/dp/B0DEMO") }
        movieItem := none } }]

/-- C3 (witness): the record extracted from the concrete demo page has a
non-empty items list. -/
theorem extractOrders_items_nonempty_witness :
    ((Extraction.extractOrders demoCards).headD
      { orderDate := [], price := [], items := [] }).items ≠ [] :=
  extractOrders_items_nonempty demoCards _ (by decide)

/-- C8: extraction is a deterministic function of the settled page
content.  The embedded `extractOrders` reads nothing but the document
passed to `page.evaluate` - the source closes over no module-level
mutable state and keeps no counters between runs - so running it twice
on an unchanged page yields identical record lists. -/
theorem extractOrders_idempotent (cards : List Extraction.OrderCard) :
    (Extraction.extractOrdersTwice cards).1 = (Extraction.extractOrdersTwice cards).2 := rfl

/-! ## MFA submission (src/utils/auth.ts, src/unnamed/part_001 lines
223-311) and order-history navigation (src/utils/navigation.ts,
src/unnamed/part_001 lines 1-160). -/

namespace Auth

def submitMFACodeE (d : Drv) (otpCode : JStr) : Except JStr Bool := do
  d.screenshot (str "otp-page.png")
  let inputField? ← findVisibleE d SELECTORS.OTP_INPUT_SELECTORS
  match inputField? with
  | none => return false
  | some inputField =>
    d.fill inputField []
    d.fill inputField otpCode
    let submitButton? ← findVisibleE d SELECTORS.SUBMIT_BUTTON_SELECTORS
    match submitButton? with
    | none => return false
    | some submitButton =>
      d.click submitButton
      d.waitForNavigation
      d.screenshot (str "after-otp-submission.png")
      let stillOnOTPPage := isMFARequired d
      let hasError ← d.isVisible SELECTORS.ERROR_CONTAINER
      if stillOnOTPPage || hasError then
        let _errorText ← d.textContent SELECTORS.ERROR_CONTAINER
        return false
      return true

def submitMFACode (d : Drv) (otpCode : JStr) : Bool :=
  match submitMFACodeE d otpCode with
  | .ok b => b
  | .error _ => false

end Auth

namespace Navigation

def ORDER_HISTORY_URL : JStr := str "https://www.amazon.in/gp/css/order-history"

def ORDER_HISTORY_YEAR_URL (year : Int) : JStr :=
  str "https://www.amazon.in/your-orders/orders?timeFilter=year-" ++ (toString year).toList

def orderUrlDetected (url : JStr) : Bool :=
  jsIncludes (str "order-history") url || jsIncludes (str "your-orders") url ||
    jsIncludes (str "gp/css/order-history") url

/-- Per-selector `try { if (await page.isVisible(sel)) ... } catch
{ continue }` scan: a rejected probe is swallowed and the scan moves on. -/
def anyVisibleCatch (d : Drv) : List JStr → Bool
  | [] => false
  | s :: rest =>
      match d.isVisible s with
      | .ok true => true
      | _ => anyVisibleCatch d rest

/-- The polling loop of up to 10 rounds: the URL pattern is checked
first, then the indicator scan, then a wait before the next round. -/
def pollLoop (d : Drv) : Nat → Except JStr Bool
  | 0 => .ok false
  | n + 1 => do
      if orderUrlDetected d.url then
        d.waitForTimeout
        return true
      if anyVisibleCatch d SELECTORS.ORDER_PAGE_INDICATORS then
        return true
      d.waitForTimeout
      pollLoop d n

def navigateToOrderHistoryE (d : Drv) : Except JStr Bool := do
  let orderButton ← d.findEl SELECTORS.ORDER_BUTTON
  if orderButton then
    d.click SELECTORS.ORDER_BUTTON
    try
      let orderPageLoaded ← pollLoop d 10
      d.screenshot (str "order-page-check.png")
      if orderPageLoaded then
        return true
      return false
    catch _ =>
      d.screenshot (str "orders-page-error.png")
      if jsIncludes (str "order-history") d.url || jsIncludes (str "your-orders") d.url then
        return true
      return false
  else
    d.goto ORDER_HISTORY_URL
    if anyVisibleCatch d SELECTORS.ORDER_PAGE_INDICATORS then
      return true
    if jsIncludes (str "order-history") d.url || jsIncludes (str "your-orders") d.url then
      return true
    return false

def navigateToOrderHistory (d : Drv) : Bool :=
  match navigateToOrderHistoryE d with
  | .ok b => b
  | .error _ => false

def selectOrderYearE (d : Drv) (year : Int) : Except JStr Bool := do
  d.goto (ORDER_HISTORY_YEAR_URL year)
  d.waitForTimeout
  let orderElementsVisible ← d.isVisible
    (str ".your-orders-content, .order-card, .a-box-group, div[class*=\"order\"]")
  if orderElementsVisible then
    return true
  else
    d.screenshot (str "year-direct-navigation-" ++ (toString year).toList ++ str ".png")
    return true

def selectOrderYear (d : Drv) (year : Int) : Bool :=
  match selectOrderYearE d year with
  | .ok b => b
  | .error _ => false

end Navigation

/-- C9: every page-driving operation exposed to the control flow is total
with respect to driver errors: whenever its body raises (the `E`-suffixed
embedding returns `Except.error`), the operation itself - the body under
the function's top-level try/catch - returns the failure value `false`
(or the empty list for `extractOrders`) instead of propagating the
exception. -/
theorem operations_catch_errors (d : Drv) (fd : Scraper.FlatDrv)
    (u pw code : JStr) (year : Int) (e : JStr) :
    (Login.enterUsernameE d u = .error e → Login.enterUsername d u = false) ∧
    (Login.enterPasswordE d pw = .error e → Login.enterPassword d pw = false) ∧
    (Auth.submitMFACodeE d code = .error e → Auth.submitMFACode d code = false) ∧
    (Navigation.navigateToOrderHistoryE d = .error e →
      Navigation.navigateToOrderHistory d = false) ∧
    (Navigation.selectOrderYearE d year = .error e →
      Navigation.selectOrderYear d year = false) ∧
    (Scraper.extractOrdersE fd = .error e → Scraper.extractOrders fd = []) := by
  refine ⟨?_, ?_, ?_, ?_, ?_, ?_⟩ <;> intro h <;>
    simp [Login.enterUsername, Login.enterPassword, Auth.submitMFACode,
      Navigation.navigateToOrderHistory, Navigation.selectOrderYear,
      Scraper.extractOrders, h]

/-- A driver whose every primitive rejects, as after a crashed tab. -/
def failingDrv : Drv where
  url := str "about:blank"
  urlFinal := str "about:blank"
  title := .error (str "target closed")
  isVisible := fun _ => .error (str "target closed")
  textContent := fun _ => .error (str "target closed")
  fill := fun _ _ => .error (str "target closed")
  click := fun _ => .error (str "target closed")
  goto := fun _ => .error (str "target closed")
  screenshot := fun _ => .error (str "target closed")
  waitForTimeout := .error (str "target closed")
  waitForNavigation := .error (str "target closed")
  waitForSelector := fun _ => .error (str "target closed")
  navRace := .error (str "target closed")
  findEl := fun _ => .error (str "target closed")

def failingFlatDrv : Scraper.FlatDrv where
  isVisible := fun _ => .error (str "target closed")
  waitForTimeout := .error (str "target closed")
  containersOf := fun _ => .error (str "target closed")
  linksOf := fun _ => .error (str "target closed")

/-- C9 (witness): on the crashed driver every operation's body raises at
its first interaction, and every operation returns its failure value. -/
theorem operations_catch_errors_witness :
    Login.enterUsername failingDrv (str "user@example.com") = false ∧
    Login.enterPassword failingDrv (str "hunter2") = false ∧
    Auth.submitMFACode failingDrv (str "123456") = false ∧
    Navigation.navigateToOrderHistory failingDrv = false ∧
    Navigation.selectOrderYear failingDrv 2025 = false ∧
    Scraper.extractOrders failingFlatDrv = [] := by
  have h := operations_catch_errors failingDrv failingFlatDrv
    (str "user@example.com") (str "hunter2") (str "123456") 2025 (str "target closed")
  exact ⟨h.1 rfl, h.2.1 rfl, h.2.2.1 rfl, h.2.2.2.1 rfl, h.2.2.2.2.1 rfl, h.2.2.2.2.2 rfl⟩

/-! ## Credential prompting and the login retry loops (src/src/index.ts
lines 22-100 and 102-182)

The interactive prompts are driven by finite streams of raw user inputs.
`promptForCredentials` validates the identifier with
`validateCredentials` and the secret with `validatePassword` (inquirer
re-prompts locally until the validate callback accepts, consuming from
the stream); `promptForPassword` - the retry prompt of the password
loop - has no validate callback and takes the next input as is.  The
driver outcome of each `enterUsername` / `enterPassword` call is an
oracle, and each call emits one fill event carrying the submitted input;
an exhausted stream models the user abandoning a prompt (the `return
null` paths).  The model covers handleLogin through the password stage;
the later OTP stage takes neither identifier nor secret input. -/

namespace Index

inductive DrvEv where
  | fillU (u : JStr)
  | fillP (p : JStr)
deriving DecidableEq, Repr

def promptValid (valid : JStr → Bool) : List JStr → Option (JStr × List JStr)
  | [] => none
  | x :: xs => if valid x then some (x, xs) else promptValid valid xs

def promptForCredentials (us ps : List JStr) :
    Option ((JStr × JStr) × List JStr × List JStr) :=
  match promptValid (fun u => (validateCredentials u).isValid) us with
  | none => none
  | some (u, us1) =>
      match promptValid validatePassword ps with
      | none => none
      | some (p, ps1) => some ((u, p), us1, ps1)

structure UserLoopRes where
  status : Option Bool
  us : List JStr
  ps : List JStr
  events : List DrvEv
  decs : Nat
deriving Repr

/-- The loop `while (!usernameEntered && usernameAttempts > 1)` of
handleLogin (lines 128-145): decrement, re-prompt via
`promptForCredentials` (whose freshly prompted password is discarded -
the original secret is retained), retry `enterUsername`.  `status` is
`none` when a prompt stream was exhausted (the `return null` path). -/
def usernameLoop (usernameOk : JStr → Bool) :
    Nat → List JStr → List JStr → Bool → List DrvEv → Nat → UserLoopRes
  | 0, us, ps, entered, evs, decs =>
      { status := some entered, us := us, ps := ps, events := evs, decs := decs }
  | 1, us, ps, entered, evs, decs =>
      { status := some entered, us := us, ps := ps, events := evs, decs := decs }
  | attempts + 2, us, ps, entered, evs, decs =>
      if entered then
        { status := some true, us := us, ps := ps, events := evs, decs := decs }
      else
        match promptForCredentials us ps with
        | none =>
            { status := none, us := us, ps := ps, events := evs, decs := decs + 1 }
        | some ((u, _newPw), us1, ps1) =>
            usernameLoop usernameOk (attempts + 1) us1 ps1 (usernameOk u)
              (evs ++ [DrvEv.fillU u]) (decs + 1)

structure PassLoopRes where
  status : Option Bool
  rs : List JStr
  events : List DrvEv
  decs : Nat
deriving Repr

/-- The loop `while (!passwordEntered && passwordAttempts > 1)` of
handleLogin (lines 159-176): decrement, re-prompt via the unvalidated
`promptForPassword`, retry `enterPassword`. -/
def passwordLoop (passwordOk : JStr → Bool) :
    Nat → List JStr → Bool → List DrvEv → Nat → PassLoopRes
  | 0, rs, entered, evs, decs =>
      { status := some entered, rs := rs, events := evs, decs := decs }
  | 1, rs, entered, evs, decs =>
      { status := some entered, rs := rs, events := evs, decs := decs }
  | attempts + 2, rs, entered, evs, decs =>
      if entered then
        { status := some true, rs := rs, events := evs, decs := decs }
      else
        match rs with
        | [] => { status := none, rs := [], events := evs, decs := decs + 1 }
        | p :: rs1 =>
            passwordLoop passwordOk (attempts + 1) rs1 (passwordOk p)
              (evs ++ [DrvEv.fillP p]) (decs + 1)

structure LoginRun where
  events : List DrvEv
  userDecs : Nat
  passDecs : Nat
  outcome : Option Bool
deriving Repr

/-- handleLogin through the password stage: initial validated prompt,
first `enterUsername` with its retry loop (budget 3), then
`enterPassword` with the original secret and its retry loop (budget 3).
`outcome` is `none` when a prompt was abandoned, `some false` when a
budget was exhausted, `some true` when the password stage succeeded. -/
def runLoginModel (usernameOk passwordOk : JStr → Bool)
    (us ps rs : List JStr) : LoginRun :=
  match promptForCredentials us ps with
  | none => { events := [], userDecs := 0, passDecs := 0, outcome := none }
  | some ((u, p), us1, ps1) =>
      let r1 := usernameLoop usernameOk 3 us1 ps1 (usernameOk u) [DrvEv.fillU u] 0
      match r1.status with
      | none =>
          { events := r1.events, userDecs := r1.decs, passDecs := 0, outcome := none }
      | some false =>
          { events := r1.events, userDecs := r1.decs, passDecs := 0, outcome := some false }
      | some true =>
          let r2 := passwordLoop passwordOk 3 rs (passwordOk p)
            (r1.events ++ [DrvEv.fillP p]) 0
          { events := r2.events, userDecs := r1.decs, passDecs := r2.decs,
            outcome := r2.status }

end Index

theorem promptValid_valid (valid : JStr → Bool) (l l1 : List JStr) (x : JStr)
    (h : Index.promptValid valid l = some (x, l1)) : valid x = true := by
  induction l generalizing l1 with
  | nil => simp [Index.promptValid] at h
  | cons a as ih =>
      unfold Index.promptValid at h
      by_cases ha : valid a = true
      · rw [if_pos ha] at h
        obtain ⟨h1, _⟩ := Prod.mk.injEq _ _ _ _ ▸ Option.some.inj h
        exact h1 ▸ ha
      · rw [if_neg ha] at h
        exact ih _ h

theorem promptForCredentials_valid (us ps us1 ps1 : List JStr) (u p : JStr)
    (h : Index.promptForCredentials us ps = some ((u, p), us1, ps1)) :
    (validateCredentials u).isValid = true ∧ validatePassword p = true := by
  unfold Index.promptForCredentials at h
  cases hu : Index.promptValid (fun u => (validateCredentials u).isValid) us with
  | none => rw [hu] at h; exact absurd h (by simp)
  | some r1 =>
      rw [hu] at h
      cases hp : Index.promptValid validatePassword ps with
      | none => rw [hp] at h; exact absurd h (by simp)
      | some r2 =>
          rw [hp] at h
          obtain ⟨u1, us2⟩ := r1
          obtain ⟨p1, ps2⟩ := r2
          simp only [Option.some.injEq, Prod.mk.injEq] at h
          obtain ⟨⟨rfl, rfl⟩, _⟩ := h
          exact ⟨promptValid_valid _ _ _ _ hu, promptValid_valid _ _ _ _ hp⟩

/-- Identifier fill events carry validated identifiers. -/
def validUEvents (l : List Index.DrvEv) : Prop :=
  ∀ u : JStr, Index.DrvEv.fillU u ∈ l → (validateCredentials u).isValid = true

theorem usernameLoop_events_valid (usernameOk : JStr → Bool) (n : Nat) :
    ∀ (us ps : List JStr) (entered : Bool) (evs : List Index.DrvEv) (decs : Nat),
      validUEvents evs →
      validUEvents (Index.usernameLoop usernameOk n us ps entered evs decs).events := by
  induction n with
  | zero =>
      intro us ps entered evs decs hv
      exact hv
  | succ m ih =>
      cases m with
      | zero =>
          intro us ps entered evs decs hv
          exact hv
      | succ k =>
          intro us ps entered evs decs hv
          unfold Index.usernameLoop
          by_cases he : entered = true
          · rw [if_pos he]
            exact hv
          · rw [if_neg he]
            cases hc : Index.promptForCredentials us ps with
            | none => exact hv
            | some r =>
                obtain ⟨⟨u, pw⟩, us1, ps1⟩ := r
                have hu := (promptForCredentials_valid _ _ _ _ _ _ hc).1
                apply ih
                intro v hvmem
                rcases List.mem_append.mp hvmem with hin | hin
                · exact hv v hin
                · simp only [List.mem_singleton] at hin
                  cases hin
                  exact hu

theorem passwordLoop_events_valid (passwordOk : JStr → Bool) (n : Nat) :
    ∀ (rs : List JStr) (entered : Bool) (evs : List Index.DrvEv) (decs : Nat),
      validUEvents evs →
      validUEvents (Index.passwordLoop passwordOk n rs entered evs decs).events := by
  induction n with
  | zero =>
      intro rs entered evs decs hv
      exact hv
  | succ m ih =>
      cases m with
      | zero =>
          intro rs entered evs decs hv
          exact hv
      | succ k =>
          intro rs entered evs decs hv
          unfold Index.passwordLoop
          by_cases he : entered = true
          · rw [if_pos he]
            exact hv
          · rw [if_neg he]
            cases rs with
            | nil => exact hv
            | cons p rs1 =>
                apply ih
                intro v hvmem
                rcases List.mem_append.mp hvmem with hin | hin
                · exact hv v hin
                · simp [List.mem_singleton] at hin

theorem promptValid_cons_invalid (valid : JStr → Bool) (bad : JStr) (l : List JStr)
    (h : valid bad = false) :
    Index.promptValid valid (bad :: l) = Index.promptValid valid l := by
  unfold Index.promptValid
  rw [if_neg (by simp [h])]
  cases l <;> rfl

/-- C6 (amended): malformed identifiers are rejected locally at every
identifier prompt before any driver interaction - every identifier that
reaches the driver classifies as valid - and rejected inputs (malformed
identifiers anywhere, and empty secrets at the initial validated
credentials prompt) leave the whole run unchanged: same driver events,
same budget decrements, same outcome.  The password-only retry prompt is
not covered: it performs no validation (see the counterexample). -/
theorem login_input_gating :
    (∀ (usernameOk passwordOk : JStr → Bool) (us ps rs : List JStr) (u : JStr),
        Index.DrvEv.fillU u ∈ (Index.runLoginModel usernameOk passwordOk us ps rs).events →
        (validateCredentials u).isValid = true) ∧
    (∀ (usernameOk passwordOk : JStr → Bool) (us ps rs : List JStr) (bad : JStr),
        (validateCredentials bad).isValid = false →
        Index.runLoginModel usernameOk passwordOk (bad :: us) ps rs =
          Index.runLoginModel usernameOk passwordOk us ps rs) ∧
    (∀ (usernameOk passwordOk : JStr → Bool) (us ps rs : List JStr) (bad : JStr),
        validatePassword bad = false →
        Index.runLoginModel usernameOk passwordOk us (bad :: ps) rs =
          Index.runLoginModel usernameOk passwordOk us ps rs) := by
  refine ⟨?_, ?_, ?_⟩
  · intro O P us ps rs u hmem
    unfold Index.runLoginModel at hmem
    cases hc : Index.promptForCredentials us ps with
    | none =>
        rw [hc] at hmem
        simp at hmem
    | some r =>
        obtain ⟨⟨u0, p0⟩, us1, ps1⟩ := r
        rw [hc] at hmem
        simp only [] at hmem
        have hu0 := (promptForCredentials_valid _ _ _ _ _ _ hc).1
        have hbase : validUEvents [Index.DrvEv.fillU u0] := by
          intro v hv
          simp only [List.mem_singleton] at hv
          cases hv
          exact hu0
        have h1 := usernameLoop_events_valid O 3 us1 ps1 (O u0) [Index.DrvEv.fillU u0] 0 hbase
        cases hst : (Index.usernameLoop O 3 us1 ps1 (O u0) [Index.DrvEv.fillU u0] 0).status with
        | none =>
            rw [hst] at hmem
            exact h1 u (by simpa using hmem)
        | some b =>
            cases b with
            | false =>
                rw [hst] at hmem
                exact h1 u (by simpa using hmem)
            | true =>
                rw [hst] at hmem
                simp only [] at hmem
                have h2 : validUEvents
                    ((Index.usernameLoop O 3 us1 ps1 (O u0) [Index.DrvEv.fillU u0] 0).events ++
                      [Index.DrvEv.fillP p0]) := by
                  intro v hv
                  rcases List.mem_append.mp hv with h | h
                  · exact h1 v h
                  · simp [List.mem_singleton] at h
                have h3 := passwordLoop_events_valid P 3 rs (P p0) _ 0 h2
                exact h3 u (by simpa using hmem)
  · intro O P us ps rs bad hbad
    have hpc : Index.promptForCredentials (bad :: us) ps = Index.promptForCredentials us ps := by
      unfold Index.promptForCredentials
      rw [promptValid_cons_invalid _ _ _ hbad]
    unfold Index.runLoginModel
    rw [hpc]
  · intro O P us ps rs bad hbad
    have hpc : Index.promptForCredentials us (bad :: ps) = Index.promptForCredentials us ps := by
      unfold Index.promptForCredentials
      rw [promptValid_cons_invalid _ _ _ hbad]
    unfold Index.runLoginModel
    rw [hpc]

/-- C6 (counterexample): at the password retry prompt after a failed
attempt (promptForPassword, which has no validate callback) an empty
secret is not rejected: it is submitted to the driver, producing a
password fill event carrying the empty string. -/
theorem empty_secret_reaches_driver :
    validatePassword [] = false ∧
    Index.DrvEv.fillP [] ∈ (Index.runLoginModel (fun _ => true) List.isEmpty
      [str "user@example.com"] [str "secret1"] [[]]).events :=
  ⟨by decide, by decide⟩

/-- C6 (witness): concrete runs exercising the amended theorem - a valid
identifier reaching the driver is validated, and prepending the
malformed identifier `abc` or an initial empty secret leaves the run
unchanged. -/
theorem login_input_gating_witness :
    (validateCredentials (str "user@example.com")).isValid = true ∧
    Index.runLoginModel (fun _ => true) (fun _ => true)
        (str "abc" :: [str "user@example.com"]) [str "pw1"] [] =
      Index.runLoginModel (fun _ => true) (fun _ => true)
        [str "user@example.com"] [str "pw1"] [] ∧
    Index.runLoginModel (fun _ => true) (fun _ => true)
        [str "user@example.com"] ([] :: [str "pw1"]) [] =
      Index.runLoginModel (fun _ => true) (fun _ => true)
        [str "user@example.com"] [str "pw1"] [] :=
  ⟨login_input_gating.1 (fun _ => true) (fun _ => true) [str "user@example.com"]
      [str "pw1"] [] (str "user@example.com") (by decide),
   login_input_gating.2.1 (fun _ => true) (fun _ => true) [str "user@example.com"]
      [str "pw1"] [] (str "abc") (by decide),
   login_input_gating.2.2 (fun _ => true) (fun _ => true) [str "user@example.com"]
      [str "pw1"] [] [] (by decide)⟩

/-! ## Exit paths and the browser resource (src/src/index.ts lines
102-239 and 300-351)

Every terminal branch of `handleLogin` and `main` is enumerated with the
actions the source performs there.  `handleLoginExit` gives, per exit of
handleLogin's try body, the returned value (`none` is the `return null`
of that branch), whether the browser is still open afterwards, and
whether an exception escapes handleLogin: every `return null` branch is
preceded by `await browser.close()` (lines 118, 138, 149, 169, 180, 196,
212, 224); the success branch (line 231) hands the open browser to main;
the catch (lines 232-238) first takes a diagnostic screenshot and closes
only if that screenshot itself succeeds.  `mainModel` then runs main:
an escaped exception, or one thrown during the post-login phase (e.g.
the screenshot at line 249 inside scrapeOrders), reaches main's catch,
which calls `process.exit(1)` without closing; on the error-free success
path the browser is closed through the page's `browser()` or `context()`
accessor (lines 333-343), and through neither it stays open. -/

namespace Index

inductive LoginExit where
  | abortCreds
  | abortCredsRetry
  | userExhausted
  | abortPassPrompt
  | passExhausted
  | abortOtpPrompt
  | otpExhausted
  | stillOnLogin
  | success
  | bodyThrows
deriving DecidableEq, Repr

structure MainEnv where
  loginExit : LoginExit
  catchScreenshotOk : Bool
  scrapeThrows : Bool
  pageBrowserFn : Bool
  pageContextFn : Bool
deriving DecidableEq, Repr

structure RunOutcome where
  browserOpen : Bool
  exitCode : Nat
deriving DecidableEq, Repr

def handleLoginExit (x : LoginExit) (catchScreenshotOk : Bool) :
    Option Bool × Bool × Bool :=
  match x with
  | .abortCreds => (none, false, false)
  | .abortCredsRetry => (none, false, false)
  | .userExhausted => (none, false, false)
  | .abortPassPrompt => (none, false, false)
  | .passExhausted => (none, false, false)
  | .abortOtpPrompt => (none, false, false)
  | .otpExhausted => (none, false, false)
  | .stillOnLogin => (none, false, false)
  | .success => (some true, true, false)
  | .bodyThrows =>
      if catchScreenshotOk then (none, false, false) else (none, true, true)

def mainModel (env : MainEnv) : RunOutcome :=
  let r := handleLoginExit env.loginExit env.catchScreenshotOk
  if r.2.2 then
    { browserOpen := r.2.1, exitCode := 1 }
  else
    match r.1 with
    | none => { browserOpen := r.2.1, exitCode := 1 }
    | some _ =>
        if env.scrapeThrows then
          { browserOpen := true, exitCode := 1 }
        else if env.pageBrowserFn then
          { browserOpen := false, exitCode := 0 }
        else if env.pageContextFn then
          { browserOpen := false, exitCode := 0 }
        else
          { browserOpen := true, exitCode := 0 }

end Index

/-- C7 (amended): the browser is closed on every login-failure branch of
handleLogin, on handleLogin's catch provided its diagnostic screenshot
succeeds, and on main's error-free success path when the page exposes a
`browser()` or `context()` accessor.  It is left open in exactly three
terminal situations: the diagnostic screenshot inside handleLogin's
catch itself throws, an error is thrown after successful login (the
post-login phase reaching main's catch, which exits without closing), or
the success path finds neither accessor on the page. -/
theorem browser_close_characterization (env : Index.MainEnv) :
    (Index.mainModel env).browserOpen = true ↔
      (env.loginExit = Index.LoginExit.bodyThrows ∧ env.catchScreenshotOk = false) ∨
      (env.loginExit = Index.LoginExit.success ∧ (env.scrapeThrows = true ∨
        (env.pageBrowserFn = false ∧ env.pageContextFn = false))) := by
  obtain ⟨x, c, s, b, k⟩ := env
  cases x <;> cases c <;> cases s <;> cases b <;> cases k <;> decide

/-- C7 (counterexample): a run that authenticates successfully and then
raises during the harvest phase (for instance the diagnostic screenshot
inside scrapeOrders rejecting) terminates through main's catch with exit
code 1 while the browser is still open, so not every exit path releases
the browser. -/
theorem browser_left_open_counterexample :
    (Index.mainModel
      { loginExit := Index.LoginExit.success, catchScreenshotOk := true,
        scrapeThrows := true, pageBrowserFn := false,
        pageContextFn := true }).browserOpen = true ∧
    (Index.mainModel
      { loginExit := Index.LoginExit.success, catchScreenshotOk := true,
        scrapeThrows := true, pageBrowserFn := false,
        pageContextFn := true }).exitCode = 1 := by
  decide
